import Mathlib

/-!
Shallow embedding of the Rust energy project (src/Rust-energy-project/src/energy.rs).

All machine integers of the source are `u32` (amounts, densities, BTU values,
the decay counter) or `u8` (efficiencies, the mix coefficient).  They are
embedded as `Nat` with explicit wrap-around (`% 2^32`, `% 2^8`) at every
arithmetic operation that can overflow, matching release-mode Rust semantics.

The `Fuel` trait has exactly five implementations in the source (`Diesel`,
`LithiumBattery`, `Uranium`, `Mixed<F1, F2>`, `CustomMixed<C, F1, F2>`), so a
fuel kind is embedded as the inductive closure of those five constructors.
-/

namespace RustEnergy

/-- Modulus of 32-bit unsigned arithmetic (`u32`). -/
def U32 : Nat := 4294967296

/-- Modulus of 8-bit unsigned arithmetic (`u8`). -/
def U8 : Nat := 256

/-- Wrapping `u32` addition. -/
def wadd32 (a b : Nat) : Nat := (a + b) % U32

/-- Wrapping `u32` multiplication. -/
def wmul32 (a b : Nat) : Nat := (a * b) % U32

/-- Wrapping `u32` subtraction (operands are `u32` values, hence below `U32`). -/
def wsub32 (a b : Nat) : Nat := (U32 + a - b) % U32

/-- Wrapping `u8` subtraction (operands are `u8` values, hence below `U8`). -/
def wsub8 (a b : Nat) : Nat := (U8 + a - b) % U8

/-- The three energy units of the source: `Joule`, `Calorie`, and the alias
`type BTU = u32`. -/
inductive EnergyUnit
  | joule
  | calorie
  | btu
deriving DecidableEq

/-- The `Into<BTU>` conversions: `From<Joule> for BTU` divides by 1055,
`From<Calorie> for BTU` divides by 251, and `BTU` itself converts
identically. -/
def toBTU : EnergyUnit → Nat → Nat
  | EnergyUnit.joule, j => j / 1055
  | EnergyUnit.calorie, c => c / 251
  | EnergyUnit.btu, b => b

/-- The `From<BTU>` conversions: `Joule` multiplies by 1055 (a `u32`
multiplication, hence wrapping), `Calorie` multiplies by 251, and `BTU`
converts identically. -/
def fromBTU : EnergyUnit → Nat → Nat
  | EnergyUnit.joule, b => wmul32 b 1055
  | EnergyUnit.calorie, b => wmul32 b 251
  | EnergyUnit.btu, b => b

/-- The multiplicative factor of the `From<BTU>` conversion for each unit. -/
def unitFactor : EnergyUnit → Nat
  | EnergyUnit.joule => 1055
  | EnergyUnit.calorie => 251
  | EnergyUnit.btu => 1

/-- The inductive closure of the five `Fuel` implementations of the source.
`C` in `customMixed` is the `u8` const generic coefficient. -/
inductive FuelKind
  | diesel
  | lithiumBattery
  | uranium
  | mixed (F1 F2 : FuelKind)
  | customMixed (C : Nat) (F1 F2 : FuelKind)
deriving DecidableEq

/-- The associated `Fuel::Output` unit of each fuel kind: `Diesel` and
`Uranium` output `Joule`, `LithiumBattery` outputs `Calorie`, and both
composite kinds output `BTU`. -/
def output : FuelKind → EnergyUnit
  | FuelKind.diesel => EnergyUnit.joule
  | FuelKind.lithiumBattery => EnergyUnit.calorie
  | FuelKind.uranium => EnergyUnit.joule
  | FuelKind.mixed _ _ => EnergyUnit.btu
  | FuelKind.customMixed _ _ _ => EnergyUnit.btu

/-- The magnitude returned by `Fuel::energy_density()` for each kind, in that
kind's output unit.  Leaves construct their density with `Output::from` of a
BTU literal; `Mixed` averages the two constituent densities converted to BTU
(`u32` addition, then division by 2); `CustomMixed` computes
`d1 * C / 100 + d2 * (100 - C) / 100` in `u32` arithmetic, where `C` is the
`u8` coefficient widened with `as u32`. -/
def energy_density : FuelKind → Nat
  | FuelKind.diesel => fromBTU EnergyUnit.joule 100
  | FuelKind.lithiumBattery => fromBTU EnergyUnit.calorie 200
  | FuelKind.uranium => fromBTU EnergyUnit.joule 1000
  | FuelKind.mixed F1 F2 =>
      wadd32 (toBTU (output F1) (energy_density F1))
        (toBTU (output F2) (energy_density F2)) / 2
  | FuelKind.customMixed C F1 F2 =>
      wadd32 (wmul32 (toBTU (output F1) (energy_density F1)) (C % U8) / 100)
        (wmul32 (toBTU (output F2) (energy_density F2)) (wsub32 100 (C % U8)) / 100)

/-- The density of a fuel kind converted to BTU, i.e.
`F::energy_density().into()` as it appears in the provider helpers. -/
def densityBTU (F : FuelKind) : Nat := toBTU (output F) (energy_density F)

/-- `FuelContainer<F>` holds only the `u32` field `amount` (the fuel kind is a
phantom type parameter, passed separately here). -/
structure FuelContainer where
  amount : Nat
deriving DecidableEq

/-- The clamping of an efficiency: `if e > 100 { 100 } else { e }`. -/
def saturate (e : Nat) : Nat := if e > 100 then 100 else e

/-- The BTU-stage value of `provide_energy_with_efficiency`:
`(f.amount * F::energy_density().into() * (real_e as u32)) / 100`, with both
`u32` multiplications wrapping. -/
def energyBTU (F : FuelKind) (f : FuelContainer) (e : Nat) : Nat :=
  wmul32 (wmul32 f.amount (densityBTU F)) (saturate e) / 100

/-- The BTU-stage value of `provide_energy_ideal`:
`f.amount * F::energy_density().into()`. -/
def idealBTU (F : FuelKind) (f : FuelContainer) : Nat :=
  wmul32 f.amount (densityBTU F)

/-- Default trait method `ProvideEnergy::provide_energy_with_efficiency`:
clamp `e` at 100, compute the energy in BTU, and convert back with
`F::Output::from`. -/
def provide_energy_with_efficiency (F : FuelKind) (f : FuelContainer) (e : Nat) : Nat :=
  fromBTU (output F) (energyBTU F f e)

/-- Default trait method `ProvideEnergy::provide_energy_ideal`. -/
def provide_energy_ideal (F : FuelKind) (f : FuelContainer) : Nat :=
  fromBTU (output F) (idealBTU F f)

/-- `NuclearReactor::provide_energy` calls the saturating helper with a fixed
efficiency of 99; the struct has no fields, so no state is threaded. -/
def NuclearReactor.provide_energy (F : FuelKind) (f : FuelContainer) : Nat :=
  provide_energy_with_efficiency F f 99

/-- The mutable state of `InternalCombustion<DECAY>`: the `u8` cell
`efficiency` and the `u32` cell `count`. -/
structure ICState where
  efficiency : Nat
  count : Nat
deriving DecidableEq

/-- `InternalCombustion::new`: clamp the initial efficiency at 100 and start
the counter at 0. -/
def InternalCombustion.new (efficiency : Nat) : ICState :=
  { efficiency := if efficiency > 100 then 100 else efficiency, count := 0 }

/-- The state update performed by `InternalCombustion::provide_energy`:
increment `count` (`u32`), and if it now exceeds `DECAY`, reset it to 0 and
decrement `efficiency` (`u8`, wrapping on underflow). -/
def icStep (DECAY : Nat) (s : ICState) : ICState :=
  let c := wadd32 s.count 1
  if c > DECAY then { efficiency := wsub8 s.efficiency 1, count := 0 }
  else { efficiency := s.efficiency, count := c }

/-- `InternalCombustion::provide_energy`: update the state, then convert the
container with the (possibly just-decremented) stored efficiency.  Returns the
energy together with the new state. -/
def InternalCombustion.provide_energy (DECAY : Nat) (F : FuelKind)
    (f : FuelContainer) (s : ICState) : Nat × ICState :=
  let s2 := icStep DECAY s
  (provide_energy_with_efficiency F f s2.efficiency, s2)

/-! ## Arithmetic helper lemmas -/

theorem U32_pos : 0 < U32 := by decide

theorem wmul32_lt (a b : Nat) : wmul32 a b < U32 := Nat.mod_lt _ U32_pos

theorem wmul32_eq {a b : Nat} (h : a * b < U32) : wmul32 a b = a * b :=
  Nat.mod_eq_of_lt h

theorem wadd32_le (a b : Nat) : wadd32 a b ≤ a + b := Nat.mod_le _ _

theorem wadd32_eq {a b : Nat} (h : a + b < U32) : wadd32 a b = a + b :=
  Nat.mod_eq_of_lt h

theorem fromBTU_eq_of_lt (u : EnergyUnit) (x : Nat) (h : x * unitFactor u < U32) :
    fromBTU u x = x * unitFactor u := by
  cases u
  · exact Nat.mod_eq_of_lt h
  · exact Nat.mod_eq_of_lt h
  · exact (Nat.mul_one x).symm

/-- Every fuel kind reachable in the source has a BTU density of at most
`2 * (U32 - 1) / 100`: the leaves are at most 1000, `mixed` averages, and each
of the two `customMixed` terms is a `u32` value divided by 100. -/
theorem densityBTU_le (F : FuelKind) : densityBTU F ≤ 85899344 := by
  induction F with
  | diesel => decide
  | lithiumBattery => decide
  | uranium => decide
  | mixed F1 F2 ih1 ih2 =>
      have h : densityBTU (FuelKind.mixed F1 F2) =
          wadd32 (densityBTU F1) (densityBTU F2) / 2 := rfl
      rw [h]
      calc wadd32 (densityBTU F1) (densityBTU F2) / 2
          ≤ (densityBTU F1 + densityBTU F2) / 2 :=
            Nat.div_le_div_right (wadd32_le _ _)
        _ ≤ (85899344 + 85899344) / 2 := Nat.div_le_div_right (by omega)
        _ = 85899344 := by norm_num
  | customMixed C F1 F2 ih1 ih2 =>
      have h : densityBTU (FuelKind.customMixed C F1 F2) =
          wadd32 (wmul32 (densityBTU F1) (C % U8) / 100)
            (wmul32 (densityBTU F2) (wsub32 100 (C % U8)) / 100) := rfl
      rw [h]
      have b1 : wmul32 (densityBTU F1) (C % U8) / 100 ≤ 42949672 := by
        have hlt := wmul32_lt (densityBTU F1) (C % U8)
        have hle : wmul32 (densityBTU F1) (C % U8) ≤ 4294967295 := by
          have : U32 = 4294967296 := rfl
          omega
        calc wmul32 (densityBTU F1) (C % U8) / 100 ≤ 4294967295 / 100 :=
              Nat.div_le_div_right hle
          _ = 42949672 := by norm_num
      have b2 : wmul32 (densityBTU F2) (wsub32 100 (C % U8)) / 100 ≤ 42949672 := by
        have hlt := wmul32_lt (densityBTU F2) (wsub32 100 (C % U8))
        have hle : wmul32 (densityBTU F2) (wsub32 100 (C % U8)) ≤ 4294967295 := by
          have : U32 = 4294967296 := rfl
          omega
        calc wmul32 (densityBTU F2) (wsub32 100 (C % U8)) / 100 ≤ 4294967295 / 100 :=
              Nat.div_le_div_right hle
          _ = 42949672 := by norm_num
      have := wadd32_le (wmul32 (densityBTU F1) (C % U8) / 100)
        (wmul32 (densityBTU F2) (wsub32 100 (C % U8)) / 100)
      omega

/-! ## Claim theorems -/

/-- Claim C3: efficiency saturates at 100.  For every fuel kind, every
container, and every efficiency above 100, `provide_energy_with_efficiency`
returns the same value as at efficiency 100. -/
theorem efficiency_saturates (F : FuelKind) (f : FuelContainer) (e : Nat)
    (he : 100 < e) :
    provide_energy_with_efficiency F f e = provide_energy_with_efficiency F f 100 := by
  simp [provide_energy_with_efficiency, energyBTU, saturate, he]

/-- Witness for C3: efficiency 150 yields the same result as efficiency 100 on
a Diesel container of amount 10. -/
theorem efficiency_saturates_witness :
    provide_energy_with_efficiency FuelKind.diesel ⟨10⟩ 150 =
      provide_energy_with_efficiency FuelKind.diesel ⟨10⟩ 100 :=
  efficiency_saturates FuelKind.diesel ⟨10⟩ 150 (by decide)

/-- Claim C4: `InternalCombustion<DECAY>` is a state machine over
`(count, efficiency)`: construction sets `count` to 0 and clamps the initial
efficiency to at most 100, and in every state reachable by a sequence of
`provide_energy` calls (each call performing `icStep`), `count` lies in
`[0, DECAY]` after the call completes. -/
theorem ic_count_invariant (DECAY e n : Nat) :
    (InternalCombustion.new e).count = 0 ∧
    (InternalCombustion.new e).efficiency ≤ 100 ∧
    ((icStep DECAY)^[n] (InternalCombustion.new e)).count ≤ DECAY := by
  refine ⟨rfl, ?_, ?_⟩
  · simp only [InternalCombustion.new]
    split <;> omega
  · cases n with
    | zero => exact Nat.zero_le _
    | succ n =>
        rw [Function.iterate_succ_apply']
        simp only [icStep]
        split
        · exact Nat.zero_le _
        · rename_i h
          simp only [gt_iff_lt, not_lt] at h
          simpa using h

/-- Claim C9: the decay decrement of the stored efficiency has no lower floor.
For any decay period `D` (a `u32`, so `D + 1 < 2^32` for the example family),
an instance constructed with efficiency 0 reaches, after `D` calls, the state
with efficiency 0 and counter `D`; the next call triggers the decay step,
which subtracts 1 from the stored efficiency 0 — the `u8` field wraps to 255,
an unguarded integer underflow. -/
theorem efficiency_underflow (D : Nat) (hD : D + 1 < U32) :
    ((icStep D)^[D] (InternalCombustion.new 0)).efficiency = 0 ∧
    ((icStep D)^[D] (InternalCombustion.new 0)).count = D ∧
    (icStep D)^[D + 1] (InternalCombustion.new 0) = ⟨255, 0⟩ := by
  have run : ∀ k, k ≤ D → (icStep D)^[k] (InternalCombustion.new 0) = ⟨0, k⟩ := by
    intro k
    induction k with
    | zero => intro _; rfl
    | succ k ih =>
        intro hk
        rw [Function.iterate_succ_apply', ih (by omega)]
        show icStep D ⟨0, k⟩ = ⟨0, k + 1⟩
        simp only [icStep]
        have hc : wadd32 k 1 = k + 1 := Nat.mod_eq_of_lt (by omega)
        rw [hc, if_neg (by omega)]
  have hD' : (icStep D)^[D] (InternalCombustion.new 0) = ⟨0, D⟩ := run D (Nat.le_refl D)
  refine ⟨by rw [hD'], by rw [hD'], ?_⟩
  rw [Function.iterate_succ_apply', hD']
  show icStep D ⟨0, D⟩ = ⟨255, 0⟩
  simp only [icStep]
  have hc : wadd32 D 1 = D + 1 := Nat.mod_eq_of_lt hD
  rw [hc, if_pos (by omega)]
  rfl

/-- Witness for C9 at the concrete decay period 3: after three calls the
stored efficiency is still 0 with counter 3, and the fourth call wraps the
efficiency to 255. -/
theorem efficiency_underflow_witness :
    3 + 1 < U32 ∧
    (((icStep 3)^[3] (InternalCombustion.new 0)).efficiency = 0 ∧
      ((icStep 3)^[3] (InternalCombustion.new 0)).count = 3 ∧
      (icStep 3)^[3 + 1] (InternalCombustion.new 0) = ⟨255, 0⟩) :=
  ⟨by decide, efficiency_underflow 3 (by decide)⟩

/-- Claim C7: for every pair of fuel kinds, the composite `Mixed<F1, F2>` has
output unit BTU and energy density `(densityBTU F1 + densityBTU F2) / 2` with
integer division (the `u32` addition never wraps because every reachable
density is bounded); in particular `Mixed<Diesel, LithiumBattery>` has density
150 BTU. -/
theorem mixed_density_avg (F1 F2 : FuelKind) :
    output (FuelKind.mixed F1 F2) = EnergyUnit.btu ∧
    energy_density (FuelKind.mixed F1 F2) = (densityBTU F1 + densityBTU F2) / 2 ∧
    energy_density (FuelKind.mixed FuelKind.diesel FuelKind.lithiumBattery) = 150 := by
  refine ⟨rfl, ?_, by decide⟩
  have h1 := densityBTU_le F1
  have h2 := densityBTU_le F2
  show wadd32 (densityBTU F1) (densityBTU F2) / 2 = _
  rw [wadd32_eq (by have : U32 = 4294967296 := rfl; omega)]

/-- Claim C1 (amended with u32 overflow bounds): for every fuel kind `F`,
amount `a`, and efficiency `e ≤ 100`, provided the `u32` intermediate products
do not overflow (`a * densityBTU F * 100 < 2^32` and the converted result
fits, `a * densityBTU F * e / 100 * unitFactor < 2^32`),
`provide_energy_with_efficiency` returns `floor(a * d * e / 100)` where
`d = energy_density F` is the density in the fuel's output unit. -/
theorem peWithEff_floor (F : FuelKind) (a e : Nat) (he : e ≤ 100)
    (h1 : a * densityBTU F * 100 < U32)
    (h2 : a * densityBTU F * e / 100 * unitFactor (output F) < U32) :
    provide_energy_with_efficiency F ⟨a⟩ e = a * energy_density F * e / 100 := by
  have hsat : saturate e = e := if_neg (by omega)
  have had : a * densityBTU F < U32 := by
    have h := Nat.le_mul_of_pos_right (a * densityBTU F) (show 0 < 100 by norm_num)
    omega
  have hade : a * densityBTU F * e < U32 := by
    have h := Nat.mul_le_mul_left (a * densityBTU F) he
    omega
  have hbtu : energyBTU F ⟨a⟩ e = a * densityBTU F * e / 100 := by
    show wmul32 (wmul32 a (densityBTU F)) (saturate e) / 100 = _
    rw [hsat, wmul32_eq had, wmul32_eq hade]
  show fromBTU (output F) (energyBTU F ⟨a⟩ e) = _
  rw [hbtu, fromBTU_eq_of_lt _ _ h2]
  cases F with
  | diesel =>
      show a * 100 * e / 100 * 1055 = a * 105500 * e / 100
      have e1 : a * 100 * e = a * e * 100 := by ring
      have e2 : a * 105500 * e = a * e * 1055 * 100 := by ring
      rw [e1, e2, Nat.mul_div_cancel _ (by norm_num), Nat.mul_div_cancel _ (by norm_num)]
  | lithiumBattery =>
      show a * 200 * e / 100 * 251 = a * 50200 * e / 100
      have e1 : a * 200 * e = a * e * 2 * 100 := by ring
      have e2 : a * 50200 * e = a * e * 2 * 251 * 100 := by ring
      rw [e1, e2, Nat.mul_div_cancel _ (by norm_num), Nat.mul_div_cancel _ (by norm_num)]
  | uranium =>
      show a * 1000 * e / 100 * 1055 = a * 1055000 * e / 100
      have e1 : a * 1000 * e = a * e * 10 * 100 := by ring
      have e2 : a * 1055000 * e = a * e * 10 * 1055 * 100 := by ring
      rw [e1, e2, Nat.mul_div_cancel _ (by norm_num), Nat.mul_div_cancel _ (by norm_num)]
  | mixed F1 F2 =>
      show a * densityBTU (FuelKind.mixed F1 F2) * e / 100 * 1 = _
      rw [Nat.mul_one]
      rfl
  | customMixed C F1 F2 =>
      show a * densityBTU (FuelKind.customMixed C F1 F2) * e / 100 * 1 = _
      rw [Nat.mul_one]
      rfl

/-- Witness for C1: Diesel, amount 10, efficiency 50 satisfies the bounds, and
the helper returns `floor(10 * 105500 * 50 / 100) = 527500` Joule. -/
theorem peWithEff_floor_witness :
    10 * densityBTU FuelKind.diesel * 100 < U32 ∧
    provide_energy_with_efficiency FuelKind.diesel ⟨10⟩ 50 =
      10 * energy_density FuelKind.diesel * 50 / 100 :=
  ⟨by decide, peWithEff_floor FuelKind.diesel 10 50 (by decide) (by decide) (by decide)⟩

/-- Counterexample for C1 as stated: at amount `2^31` on Diesel with
efficiency 100, the `u32` multiplication wraps to 0, so the returned energy is
0 rather than `floor(a * d * e / 100)`. -/
theorem peWithEff_overflow_cex :
    ¬ (provide_energy_with_efficiency FuelKind.diesel ⟨2147483648⟩ 100 =
        2147483648 * energy_density FuelKind.diesel * 100 / 100) := by decide

/-- Claim C2 (amended with u32 overflow bounds): for every fuel kind `F` and
amount `a` such that the `u32` products do not overflow,
`provide_energy_ideal` returns exactly `a * energy_density F` in the output
unit, and coincides with the efficiency helper at `e = 100`. -/
theorem peIdeal_exact (F : FuelKind) (a : Nat)
    (h1 : a * densityBTU F * 100 < U32)
    (h2 : a * densityBTU F * unitFactor (output F) < U32) :
    provide_energy_ideal F ⟨a⟩ = a * energy_density F ∧
    provide_energy_ideal F ⟨a⟩ = provide_energy_with_efficiency F ⟨a⟩ 100 := by
  have had : a * densityBTU F < U32 := by
    have h := Nat.le_mul_of_pos_right (a * densityBTU F) (show 0 < 100 by norm_num)
    omega
  have hib : idealBTU F ⟨a⟩ = a * densityBTU F := by
    show wmul32 a (densityBTU F) = _
    exact wmul32_eq had
  constructor
  · show fromBTU (output F) (idealBTU F ⟨a⟩) = _
    rw [hib, fromBTU_eq_of_lt _ _ h2]
    cases F with
    | diesel => show a * 100 * 1055 = a * 105500; ring
    | lithiumBattery => show a * 200 * 251 = a * 50200; ring
    | uranium => show a * 1000 * 1055 = a * 1055000; ring
    | mixed F1 F2 => exact Nat.mul_one _
    | customMixed C F1 F2 => exact Nat.mul_one _
  · show fromBTU (output F) (idealBTU F ⟨a⟩) = fromBTU (output F) (energyBTU F ⟨a⟩ 100)
    have hb : energyBTU F ⟨a⟩ 100 = idealBTU F ⟨a⟩ := by
      show wmul32 (wmul32 a (densityBTU F)) (saturate 100) / 100 = wmul32 a (densityBTU F)
      have hs : saturate 100 = 100 := rfl
      rw [hs, wmul32_eq had, wmul32_eq h1, Nat.mul_div_cancel _ (by norm_num)]
    rw [hb]

/-- Witness for C2: Diesel, amount 10 satisfies the bounds; the ideal helper
returns `10 * 105500 = 1055000` Joule and agrees with efficiency 100. -/
theorem peIdeal_exact_witness :
    10 * densityBTU FuelKind.diesel * 100 < U32 ∧
    (provide_energy_ideal FuelKind.diesel ⟨10⟩ = 10 * energy_density FuelKind.diesel ∧
      provide_energy_ideal FuelKind.diesel ⟨10⟩ =
        provide_energy_with_efficiency FuelKind.diesel ⟨10⟩ 100) :=
  ⟨by decide, peIdeal_exact FuelKind.diesel 10 (by decide) (by decide)⟩

/-- Counterexample for C2 as stated: at amount `2^31` on Diesel the `u32`
multiplication wraps to 0, so the ideal conversion returns 0, not
`a * energy_density`. -/
theorem peIdeal_overflow_cex :
    ¬ (provide_energy_ideal FuelKind.diesel ⟨2147483648⟩ =
        2147483648 * energy_density FuelKind.diesel) := by decide

/-- Claim C5 (amended with the actual output-unit magnitudes): for an
`InternalCombustion<3>` constructed with efficiency 120 (clamped to 100), the
first three `provide_energy` calls with a Diesel container of amount 10 each
yield Joule magnitude 1055000 (1000 in BTU-equivalent), and the fourth call —
on which the counter resets to 0 and the efficiency drops to 99 — yields
1044450 Joule (990 BTU-equivalent). -/
theorem ic_decay_example :
    (InternalCombustion.provide_energy 3 FuelKind.diesel ⟨10⟩
        (InternalCombustion.new 120)).1 = 1055000 ∧
    (InternalCombustion.provide_energy 3 FuelKind.diesel ⟨10⟩
        ((icStep 3)^[1] (InternalCombustion.new 120))).1 = 1055000 ∧
    (InternalCombustion.provide_energy 3 FuelKind.diesel ⟨10⟩
        ((icStep 3)^[2] (InternalCombustion.new 120))).1 = 1055000 ∧
    (InternalCombustion.provide_energy 3 FuelKind.diesel ⟨10⟩
        ((icStep 3)^[3] (InternalCombustion.new 120))).1 = 1044450 ∧
    toBTU EnergyUnit.joule 1055000 = 1000 ∧
    toBTU EnergyUnit.joule 1044450 = 990 ∧
    (icStep 3)^[4] (InternalCombustion.new 120) = ⟨99, 0⟩ := by decide

/-- Counterexample for C5 as stated: the first call does not return the value
1000 in Joule — 1000 is the BTU-equivalent, while the Joule magnitude is
1055000. -/
theorem ic_decay_joule_cex :
    ¬ ((InternalCombustion.provide_energy 3 FuelKind.diesel ⟨10⟩
        (InternalCombustion.new 120)).1 = 1000) := by decide

/-- Claim C6 (amended with the actual Joule magnitude): `NuclearReactor` is
stateless and every `provide_energy` call equals
`provide_energy_with_efficiency` at fixed efficiency 99 for any fuel kind and
amount; on a Uranium container of amount 10 it returns Joule magnitude
10444500, whose BTU-equivalent is 9900. -/
theorem nuclear_fixed_efficiency :
    (∀ (F : FuelKind) (f : FuelContainer),
      NuclearReactor.provide_energy F f = provide_energy_with_efficiency F f 99) ∧
    NuclearReactor.provide_energy FuelKind.uranium ⟨10⟩ = 10444500 ∧
    toBTU EnergyUnit.joule (NuclearReactor.provide_energy FuelKind.uranium ⟨10⟩) = 9900 :=
  ⟨fun _ _ => rfl, by decide, by decide⟩

/-- Counterexample for C6 as stated: on Uranium amount 10 the returned value
is not 9900 Joule (it is 10444500 Joule, i.e. 9900 BTU-equivalent, and
converting it to BTU gives 9900, not 9). -/
theorem nuclear_joule_cex :
    ¬ (NuclearReactor.provide_energy FuelKind.uranium ⟨10⟩ = 9900) := by decide

/-- Claim C8 (amended with coefficient and overflow bounds): for every
coefficient `C ≤ 100` and fuel kinds `F1`, `F2` whose weighted `u32` products
do not overflow, `CustomMixed<C, F1, F2>` has output unit BTU and density
`densityBTU F1 * C / 100 + densityBTU F2 * (100 - C) / 100`, each
multiplicative term truncated by integer division independently before the
summation. -/
theorem customMixed_density_weighted (C : Nat) (F1 F2 : FuelKind)
    (hc : C ≤ 100)
    (h1 : densityBTU F1 * C < U32)
    (h2 : densityBTU F2 * (100 - C) < U32) :
    output (FuelKind.customMixed C F1 F2) = EnergyUnit.btu ∧
    energy_density (FuelKind.customMixed C F1 F2) =
      densityBTU F1 * C / 100 + densityBTU F2 * (100 - C) / 100 := by
  refine ⟨rfl, ?_⟩
  have hC8 : C % U8 = C := Nat.mod_eq_of_lt (by have : U8 = 256 := rfl; omega)
  have hsub : wsub32 100 C = 100 - C := by
    show (U32 + 100 - C) % U32 = 100 - C
    have hU : U32 = 4294967296 := rfl
    have : U32 + 100 - C = U32 + (100 - C) := by omega
    rw [this, Nat.add_mod_left, Nat.mod_eq_of_lt (by omega)]
  show wadd32 (wmul32 (densityBTU F1) (C % U8) / 100)
      (wmul32 (densityBTU F2) (wsub32 100 (C % U8)) / 100) = _
  rw [hC8, hsub, wmul32_eq h1, wmul32_eq h2]
  apply wadd32_eq
  have hU : U32 = 4294967296 := rfl
  have b1 : densityBTU F1 * C / 100 ≤ densityBTU F1 * C := Nat.div_le_self _ _
  have b2 : densityBTU F2 * (100 - C) / 100 ≤ densityBTU F2 * (100 - C) :=
    Nat.div_le_self _ _
  have d1 : densityBTU F1 * C / 100 ≤ 42949672 := by
    calc densityBTU F1 * C / 100 ≤ 4294967295 / 100 :=
          Nat.div_le_div_right (by omega)
      _ = 42949672 := by norm_num
  have d2 : densityBTU F2 * (100 - C) / 100 ≤ 42949672 := by
    calc densityBTU F2 * (100 - C) / 100 ≤ 4294967295 / 100 :=
          Nat.div_le_div_right (by omega)
      _ = 42949672 := by norm_num
  omega

/-- Witness for C8: `CustomMixed<50, Diesel, LithiumBattery>` has output unit
BTU and density `100 * 50 / 100 + 200 * 50 / 100 = 150`. -/
theorem customMixed_density_witness :
    output (FuelKind.customMixed 50 FuelKind.diesel FuelKind.lithiumBattery) =
      EnergyUnit.btu ∧
    energy_density (FuelKind.customMixed 50 FuelKind.diesel FuelKind.lithiumBattery) =
      densityBTU FuelKind.diesel * 50 / 100 +
        densityBTU FuelKind.lithiumBattery * (100 - 50) / 100 :=
  customMixed_density_weighted 50 FuelKind.diesel FuelKind.lithiumBattery
    (by decide) (by decide) (by decide)

/-- Counterexample for C8 as stated (for every coefficient and fuel kinds):
with the inner coefficient 101 the `u32` subtraction `100 - C` wraps, making
`CustomMixed<101, Uranium, Uranium>` a fuel of BTU density 42950672; feeding
it as `F2` with outer coefficient 0 makes the term
`densityBTU F2 * (100 - 0)` overflow `u32`, so the outer density is 999, not
the `42950672` the per-term formula prescribes. -/
theorem customMixed_density_cex :
    ¬ (energy_density (FuelKind.customMixed 0 FuelKind.uranium
          (FuelKind.customMixed 101 FuelKind.uranium FuelKind.uranium)) =
        densityBTU FuelKind.uranium * 0 / 100 +
          densityBTU (FuelKind.customMixed 101 FuelKind.uranium FuelKind.uranium) *
            (100 - 0) / 100) := by decide

/-- Claim C10 (amended with u32 overflow bounds on the final conversion): the
energy values returned by `provide_energy_with_efficiency` and
`provide_energy_ideal` are produced by converting a BTU value back with
`From<BTU>`, so as long as that final `u32` multiplication does not overflow,
a fuel kind with output unit Joule yields a multiple of 1055 and a fuel kind
with output unit Calorie yields a multiple of 251. -/
theorem output_unit_multiple (F : FuelKind) (f : FuelContainer) (e : Nat)
    (h1 : energyBTU F f e * unitFactor (output F) < U32)
    (h2 : idealBTU F f * unitFactor (output F) < U32) :
    (output F = EnergyUnit.joule →
      1055 ∣ provide_energy_with_efficiency F f e ∧
        1055 ∣ provide_energy_ideal F f) ∧
    (output F = EnergyUnit.calorie →
      251 ∣ provide_energy_with_efficiency F f e ∧
        251 ∣ provide_energy_ideal F f) := by
  have hw : provide_energy_with_efficiency F f e = energyBTU F f e * unitFactor (output F) :=
    fromBTU_eq_of_lt _ _ h1
  have hi : provide_energy_ideal F f = idealBTU F f * unitFactor (output F) :=
    fromBTU_eq_of_lt _ _ h2
  constructor
  · intro ho
    rw [hw, hi, ho]
    exact ⟨dvd_mul_left 1055 _, dvd_mul_left 1055 _⟩
  · intro ho
    rw [hw, hi, ho]
    exact ⟨dvd_mul_left 251 _, dvd_mul_left 251 _⟩

/-- Witness for C10: Diesel (output Joule) at amount 10, efficiency 100 —
both returned magnitudes are multiples of 1055. -/
theorem output_unit_multiple_witness :
    1055 ∣ provide_energy_with_efficiency FuelKind.diesel ⟨10⟩ 100 ∧
    1055 ∣ provide_energy_ideal FuelKind.diesel ⟨10⟩ :=
  (output_unit_multiple FuelKind.diesel ⟨10⟩ 100 (by decide) (by decide)).1 rfl

/-- Counterexample for C10 as stated: Diesel has output unit Joule, but at
amount 50000 the final `BTU * 1055` conversion wraps modulo `2^32` and both
helpers return 980032704, which is not a multiple of 1055. -/
theorem output_unit_multiple_cex :
    output FuelKind.diesel = EnergyUnit.joule ∧
    ¬ (1055 ∣ provide_energy_with_efficiency FuelKind.diesel ⟨50000⟩ 100) ∧
    ¬ (1055 ∣ provide_energy_ideal FuelKind.diesel ⟨50000⟩) := by decide

end RustEnergy
